import Mathlib

/-!
Verification of the gox cross-compilation orchestrator (sniperkit/gox).

The source under verification is `src/pkg/cli.go` (the `MainCLI` driver:
parallelism resolution, package defaulting, the bounded-parallel dispatch
loop and the error aggregation / exit code). Components whose code lives
outside the provided sources (the platform selector behind
`PlatformFlag.Platforms`, the `envOverride` resolver, and the output-path
template rendering inside `GoCrossCompile`) are modelled from the
specification: those definitions carry a doc comment starting
`Modelled from the spec:`.

Everywhere machine behaviour matters: exit codes are `Nat`, the
`-parallel` flag is `Int` (it may be negative, the default is `-1`),
strings are Lean `String`.
-/

namespace Gox

/-- A build target: immutable (OS, Arch) pair. Two platforms are equal iff
both fields match (`Platform` in the repo). -/
structure Platform where
  os : String
  arch : String
deriving DecidableEq, Repr

/-- Canonical display form `"OS/Arch"` (the repo's `Platform.String()`),
used in error records and filter tokens. -/
def Platform.str (p : Platform) : String :=
  p.os ++ "/" ++ p.arch

/-! ### Filter tokens

A spec token is a plain string, negated when it begins with `!`.
Token helpers are written over `List Char` so everything the theorems
evaluate is structurally recursive. -/

/-- A token is negated when its first character is `!`. -/
def isNeg (t : String) : Bool :=
  match t.data with
  | c :: _ => c = '!'
  | [] => false

/-- The value carried by a token: itself when positive, the token with the
leading `!` removed when negated. -/
def tokenValue (t : String) : String :=
  if isNeg t then String.mk (t.data.drop 1) else t

/-- The non-negated tokens of a spec. -/
def specPositives (spec : List String) : List String :=
  spec.filter (fun t => !isNeg t)

/-- The values named by the negated tokens of a spec. -/
def specNegValues (spec : List String) : List String :=
  (spec.filter (fun t => isNeg t)).map tokenValue

/-- Modelled from the spec: step 2 of the Platform Selector (the selector
code behind `PlatformFlag.Platforms` is not among the provided sources).
If the spec contains at least one non-negated token the allowed set is
exactly those tokens; otherwise it is the universe's values minus the
negated tokens' values. -/
def allowedValues (spec : List String) (universeVals : List String) : List String :=
  if specPositives spec = [] then
    universeVals.filter (fun v => decide (v ∉ specNegValues spec))
  else
    specPositives spec

/-- The OS values occurring in a universe of platforms, in order. -/
def osValues (uni : List Platform) : List String :=
  uni.map Platform.os

/-- The Arch values occurring in a universe of platforms, in order. -/
def archValues (uni : List Platform) : List String :=
  uni.map Platform.arch

/-- Modelled from the spec: the step-2 intermediate set — the universe
filtered to platforms whose OS and Arch are both allowed. -/
def intermediate (osSpec archSpec : List String) (uni : List Platform) :
    List Platform :=
  uni.filter (fun p =>
    decide (p.os ∈ allowedValues osSpec (osValues uni)) &&
    decide (p.arch ∈ allowedValues archSpec (archValues uni)))

/-- Split a character list at its first `/`. -/
def breakSlash : List Char → Option (List Char × List Char)
  | [] => none
  | c :: rest =>
    if c = '/' then some ([], rest)
    else (breakSlash rest).map (fun q => (c :: q.1, q.2))

/-- Parse an `"os/arch"` pair token into a `Platform`; `none` when the
token has no `/` or more than one. -/
def parsePair (t : String) : Option Platform :=
  match breakSlash t.data with
  | some (o, a) => if a.contains '/' then none else some ⟨String.mk o, String.mk a⟩
  | none => none

/-- The platforms named by non-negated pair tokens. -/
def pairPositives (osArchSpec : List String) : List Platform :=
  (osArchSpec.filter (fun t => !isNeg t)).filterMap parsePair

/-- The platforms named by negated pair tokens. -/
def pairNegatives (osArchSpec : List String) : List Platform :=
  (osArchSpec.filter (fun t => isNeg t)).filterMap (fun t => parsePair (tokenValue t))

/-- Deduplicate keeping the first occurrence of each element. -/
def dedupFirst : List Platform → List Platform
  | [] => []
  | p :: rest => p :: (dedupFirst rest).filter (fun q => decide (q ≠ p))

/-- Modelled from the spec: the full Platform Selector
`Select(osSpec, archSpec, osArchSpec, universe)`. Step 2 filters the
universe by the independently allowed OS and Arch sets; step 3 adds the
platforms named by positive pair tokens when they exist in the universe
(a pair not in the universe is a warning-only no-op) and removes the
platforms named by negated pair tokens; the result is deduplicated and
pair-level negation wins over everything. -/
def select (osSpec archSpec osArchSpec : List String) (uni : List Platform) :
    List Platform :=
  let inter := intermediate osSpec archSpec uni
  let adds := (pairPositives osArchSpec).filter (fun p => decide (p ∈ uni))
  (dedupFirst (inter ++ adds)).filter
    (fun p => decide (p ∉ pairNegatives osArchSpec))

/-! ### Parallelism resolution (cli.go lines 54-69) -/

/-- Parallelism resolution from `MainCLI`: a caller value `≤ 0` defaults to
`cpus - 1` (floored at 1 when fewer than 2 CPUs are detected), overridden
to the fixed value 3 when `runtime.GOOS == "solaris"` (Joyent containers
misreport 48 cores); a caller value `≥ 1` is used unchanged. -/
def resolveParallel (parallel : Int) (cpus : Nat) (goosIsSolaris : Bool) : Int :=
  if parallel ≤ 0 then
    let fromCpus : Int := if cpus < 2 then 1 else (cpus : Int) - 1
    if goosIsSolaris then 3 else fromCpus
  else
    parallel

/-! ### Package defaulting (cli.go lines 96-101) -/

/-- Package-list defaulting from `MainCLI`: when no package arguments were
given, build the current directory. -/
def resolvePackages (args : List String) : List String :=
  if args = [] then ["."] else args

/-! ### Override Resolver (called at cli.go lines 147-151; body modelled
from the spec) -/

/-- Upper-case a string character by character. -/
def upper (s : String) : String :=
  String.mk (s.data.map Char.toUpper)

/-- Modelled from the spec: the environment-variable naming convention
`GOX_<OS>_<ARCH>_<CATEGORY>` with OS and Arch upper-cased (the body of
`envOverride` is not among the provided sources; `cli.go` only calls it
with the categories LDFLAGS, GCFLAGS, ASMFLAGS). -/
def overrideKey (p : Platform) (category : String) : String :=
  upper ("GOX_" ++ p.os ++ "_" ++ p.arch ++ "_" ++ category)

/-- Modelled from the spec: the Override Resolver
`Resolve(category, platform, globalDefault)`. `env` models the process
environment, returning `""` for unset variables. A present, non-empty
override is appended to the global default, space-joined, the global
value kept as a prefix; otherwise the global default is returned
unchanged. The model is a pure function: the global default itself is
never mutated. -/
def resolveOverride (env : String → String) (category : String) (p : Platform)
    (globalDefault : String) : String :=
  let v := env (overrideKey p category)
  if v = "" then globalDefault else globalDefault ++ " " ++ v

/-! ### Output path template (default at cli.go line 36; rendering happens
inside `GoCrossCompile`, modelled from the spec) -/

/-- The default output template of the `-output` flag (cli.go line 36). -/
def defaultOutputTpl : String := "\x7b\x7b.Dir\x7d\x7d_\x7b\x7b.OS\x7d\x7d_\x7b\x7b.Arch\x7d\x7d"

/-- The template token substituted by the package directory base name. -/
def dirPat : List Char := "\x7b\x7b.Dir\x7d\x7d".data

/-- The template token substituted by the target OS. -/
def osPat : List Char := "\x7b\x7b.OS\x7d\x7d".data

/-- The template token substituted by the target Arch. -/
def archPat : List Char := "\x7b\x7b.Arch\x7d\x7d".data

/-- Modelled from the spec: rendering of the output path template with the
recognized substitution variables `Dir`, `OS`, `Arch` (the rendering via
`text/template` lives in `GoCrossCompile`, outside the provided sources).
Scans the template left to right, replacing each variable token by its
value. -/
def renderChars (d o a : List Char) : List Char → List Char
  | c1 :: c2 :: c3 :: c4 :: c5 :: c6 :: c7 :: c8 :: c9 :: rest =>
    if [c1, c2, c3, c4, c5, c6, c7, c8, c9] = archPat then
      a ++ renderChars d o a rest
    else if [c1, c2, c3, c4, c5, c6, c7, c8] = dirPat then
      d ++ renderChars d o a (c9 :: rest)
    else if [c1, c2, c3, c4, c5, c6, c7] = osPat then
      o ++ renderChars d o a (c8 :: c9 :: rest)
    else
      c1 :: renderChars d o a (c2 :: c3 :: c4 :: c5 :: c6 :: c7 :: c8 :: c9 :: rest)
  | [c1, c2, c3, c4, c5, c6, c7, c8] =>
    if [c1, c2, c3, c4, c5, c6, c7, c8] = dirPat then d
    else if [c1, c2, c3, c4, c5, c6, c7] = osPat then o ++ [c8]
    else c1 :: renderChars d o a [c2, c3, c4, c5, c6, c7, c8]
  | [c1, c2, c3, c4, c5, c6, c7] =>
    if [c1, c2, c3, c4, c5, c6, c7] = osPat then o
    else c1 :: renderChars d o a [c2, c3, c4, c5, c6, c7]
  | c :: rest => c :: renderChars d o a rest
  | [] => []

/-- Render an output path template for one CompileUnit. -/
def renderOutputTpl (tpl dir osV archV : String) : String :=
  String.mk (renderChars dir.data osV.data archV.data tpl.data)

/-! ### Dispatch and aggregation (cli.go lines 119-173) -/

/-- The options assembled for one build (cli.go lines 134-151): the flag
values, with the three flag categories passed through the Override
Resolver for the unit's platform. -/
structure CompileOpts where
  packagePath : String
  platform : Platform
  outputTpl : String
  ldflags : String
  gcflags : String
  asmflags : String
  tags : String
  cgo : Bool
  rebuild : Bool
  goCmd : String
deriving DecidableEq, Repr

/-- Build the `CompileOpts` of one unit as the dispatch loop does
(cli.go lines 134-151): global flag values, then `envOverride` applied to
Ldflags, Gcflags and Asmflags for this platform. -/
def mkCompileOpts (env : String → String) (path : String) (p : Platform)
    (outputTpl ldflags gcflags asmflags tags : String)
    (cgo rebuild : Bool) (goCmd : String) : CompileOpts :=
  { packagePath := path
    platform := p
    outputTpl := outputTpl
    ldflags := resolveOverride env "LDFLAGS" p ldflags
    gcflags := resolveOverride env "GCFLAGS" p gcflags
    asmflags := resolveOverride env "ASMFLAGS" p asmflags
    tags := tags
    cgo := cgo
    rebuild := rebuild
    goCmd := goCmd }

/-- The units of one run: the dispatch loop iterates platforms in the
outer loop and package dirs in the inner loop (cli.go lines 125-126). -/
def dispatchUnits (platforms : List Platform) (mainDirs : List String) :
    List (Platform × String) :=
  platforms.flatMap (fun pf => mainDirs.map (fun path => (pf, path)))

/-- What the dispatch loop has done once every unit completed: which units
ran, and the recorded error strings. -/
structure DispatchResult where
  executed : List (Platform × String)
  errors : List String
deriving DecidableEq, Repr

/-- The error record appended for a failed unit (cli.go line 157):
`"<os>/<arch> error: <message>"`;  `none` when the unit's compile
succeeded. -/
def errRecord (compile : Platform → String → Option String)
    (u : Platform × String) : Option String :=
  (compile u.1 u.2).map (fun msg => u.1.str ++ " error: " ++ msg)

/-- The dispatch loop of `MainCLI` (cli.go lines 121-163): every unit runs
`GoCrossCompile` (here the abstract `compile`, `some msg` on failure); a
failure only appends an error record and never stops the remaining
units; the collected errors are available only after all units are done
(the `wg.Wait()` barrier at line 163). -/
def runBuilds (units : List (Platform × String))
    (compile : Platform → String → Option String) : DispatchResult :=
  units.foldl
    (fun acc u =>
      match compile u.1 u.2 with
      | some msg => ⟨acc.executed ++ [u], acc.errors ++ [u.1.str ++ " error: " ++ msg]⟩
      | none => ⟨acc.executed ++ [u], acc.errors⟩)
    ⟨[], []⟩

/-! ### Exit status of `MainCLI` (cli.go lines 17-174) -/

/-- The abstract inputs of one `MainCLI` run. External collaborators are
abstracted: `parseOk` is `flags.Parse` succeeding, `gocmdOnPath` is
`exec.LookPath(flagGoCmd)` succeeding, `goVersionOk` is `GoVersion()`
succeeding, `mainDirsOk`/`mainDirs` are `GoMainDirs`, `uni` stands for
`SupportedPlatforms(goVersion)`, and `compile` for `GoCrossCompile`. -/
structure CLIRun where
  parseOk : Bool
  version : Bool
  buildToolchain : Bool
  buildToolchainExit : Nat
  gocmdOnPath : Bool
  goVersionOk : Bool
  listOSArch : Bool
  listOSArchExit : Nat
  mainDirsOk : Bool
  mainDirs : List String
  osSpec : List String
  archSpec : List String
  osArchSpec : List String
  uni : List Platform
  compile : Platform → String → Option String

/-- The exit status of `MainCLI` (cli.go lines 17-174), branch for branch:
parse failure → 1 (line 49); `-version` → 1 (line 73); `-build-toolchain`
returns `mainBuildToolchain`'s status (line 77); missing go executable →
1 (line 83); unreadable Go version → 1 (line 89); `-osarch-list` returns
`mainListOSArch`'s status (line 93); unreadable packages → 1 (line 107);
empty resolved platform set → 1 (line 116); otherwise 1 iff any recorded
compile error exists, else 0 (lines 165-173). -/
def mainExit (r : CLIRun) : Nat :=
  if !r.parseOk then 1
  else if r.version then 1
  else if r.buildToolchain then r.buildToolchainExit
  else if !r.gocmdOnPath then 1
  else if !r.goVersionOk then 1
  else if r.listOSArch then r.listOSArchExit
  else if !r.mainDirsOk then 1
  else
    let platforms := select r.osSpec r.archSpec r.osArchSpec r.uni
    if platforms = [] then 1
    else if (runBuilds (dispatchUnits platforms r.mainDirs) r.compile).errors.length > 0
    then 1
    else 0

/-! ### The concurrency-slot semaphore (cli.go lines 121-163)

The dispatch loop bounds in-flight compiles with a buffered channel of
capacity `parallel`: each goroutine sends into the channel before
compiling (line 131) and receives from it when done (line 159), on the
success path and on the failure path alike. The discipline is embedded
as a transition system over counts of units. -/

/-- A snapshot of the dispatch loop: units not yet admitted, units holding
a semaphore slot, and completed units by outcome. -/
structure SemState where
  pending : Nat
  inflight : Nat
  succeeded : Nat
  failed : Nat
deriving DecidableEq, Repr

/-- One scheduler step of the dispatch loop with semaphore capacity `cap`:
a pending unit acquires a slot only while fewer than `cap` are in flight
(the send at line 131 blocks on a full channel); a finishing unit
releases its slot whether its compile succeeded or failed (the receive
at line 159 runs on both paths). -/
inductive SemStep (cap : Nat) : SemState → SemState → Prop
  | acquire (s : SemState) (hp : 0 < s.pending) (hc : s.inflight < cap) :
      SemStep cap s ⟨s.pending - 1, s.inflight + 1, s.succeeded, s.failed⟩
  | releaseOk (s : SemState) (hi : 0 < s.inflight) :
      SemStep cap s ⟨s.pending, s.inflight - 1, s.succeeded + 1, s.failed⟩
  | releaseFail (s : SemState) (hi : 0 < s.inflight) :
      SemStep cap s ⟨s.pending, s.inflight - 1, s.succeeded, s.failed + 1⟩

/-- The dispatch loop starts with all `n` units pending and no slot
taken. -/
def initState (n : Nat) : SemState := ⟨n, 0, 0, 0⟩

/-- The states the dispatch loop can reach from `n` dispatched units under
semaphore capacity `cap`. -/
inductive SemReach (cap n : Nat) : SemState → Prop
  | init : SemReach cap n (initState n)
  | step {s s' : SemState} : SemReach cap n s → SemStep cap s s' → SemReach cap n s'

/-! ### Helper lemmas -/

theorem mem_dedupFirst {p : Platform} : ∀ {l : List Platform}, p ∈ dedupFirst l ↔ p ∈ l := by
  intro l
  induction l with
  | nil => simp [dedupFirst]
  | cons q rest ih =>
    by_cases hpq : p = q
    · subst hpq
      simp [dedupFirst]
    · simp [dedupFirst, List.mem_filter, hpq, ih]

theorem nodup_dedupFirst : ∀ l : List Platform, (dedupFirst l).Nodup := by
  intro l
  induction l with
  | nil => simp [dedupFirst]
  | cons q rest ih =>
    refine List.Nodup.cons ?_ (ih.filter _)
    intro hq
    have hne := (List.mem_filter.mp hq).2
    simp at hne

/-! ### Claims about the Platform Selector -/

/-- C1: for every osSpec and universe, the step-2 allowed OS set is exactly
the non-negated tokens when at least one non-negated token is present
(negated tokens then ignored), and the universe's OS values minus the
negated tokens' values otherwise; symmetrically for archSpec; and the
intermediate set is the universe filtered to platforms whose OS and Arch
are both allowed. -/
theorem selector_step2_characterization (osSpec archSpec : List String)
    (uni : List Platform) :
    (∀ v, v ∈ allowedValues osSpec (osValues uni) ↔
      (if specPositives osSpec = [] then
        v ∈ osValues uni ∧ v ∉ specNegValues osSpec
      else
        v ∈ osSpec ∧ isNeg v = false)) ∧
    (∀ v, v ∈ allowedValues archSpec (archValues uni) ↔
      (if specPositives archSpec = [] then
        v ∈ archValues uni ∧ v ∉ specNegValues archSpec
      else
        v ∈ archSpec ∧ isNeg v = false)) ∧
    (∀ p, p ∈ intermediate osSpec archSpec uni ↔
      p ∈ uni ∧ p.os ∈ allowedValues osSpec (osValues uni) ∧
        p.arch ∈ allowedValues archSpec (archValues uni)) := by
  refine ⟨fun v => ?_, fun v => ?_, fun p => ?_⟩
  · by_cases h : specPositives osSpec = []
    · rw [allowedValues, if_pos h, if_pos h]
      simp [List.mem_filter]
    · rw [allowedValues, if_neg h, if_neg h]
      simp [specPositives, List.mem_filter, Bool.not_eq_true']
  · by_cases h : specPositives archSpec = []
    · rw [allowedValues, if_pos h, if_pos h]
      simp [List.mem_filter]
    · rw [allowedValues, if_neg h, if_neg h]
      simp [specPositives, List.mem_filter, Bool.not_eq_true']
  · simp [intermediate, List.mem_filter, and_assoc]

/-- C2: membership in the Selector's result — a platform is selected iff it
is not named by a negated pair token (pair-level negation always wins),
and either step 2 kept it or a non-negated pair token names it and the
pair exists in the universe (a positive pair token absent from the
universe is a no-op). -/
theorem select_membership (osSpec archSpec osArchSpec : List String)
    (uni : List Platform) :
    ∀ p, p ∈ select osSpec archSpec osArchSpec uni ↔
      ((p ∈ intermediate osSpec archSpec uni ∨
          (p ∈ pairPositives osArchSpec ∧ p ∈ uni)) ∧
        p ∉ pairNegatives osArchSpec) := by
  intro p
  simp only [select, List.mem_filter, mem_dedupFirst, List.mem_append,
    decide_eq_true_eq]

/-- C7: the Selector's result never contains duplicate platforms, and
identical inputs produce identical output lists (value and order). -/
theorem select_nodup_deterministic (osSpec archSpec osArchSpec : List String)
    (uni : List Platform) :
    (select osSpec archSpec osArchSpec uni).Nodup ∧
    (∀ osSpec2 archSpec2 osArchSpec2 uni2,
      osSpec = osSpec2 → archSpec = archSpec2 → osArchSpec = osArchSpec2 →
      uni = uni2 →
      select osSpec archSpec osArchSpec uni =
        select osSpec2 archSpec2 osArchSpec2 uni2) := by
  constructor
  · exact (nodup_dedupFirst _).filter _
  · intro osSpec2 archSpec2 osArchSpec2 uni2 h1 h2 h3 h4
    subst h1; subst h2; subst h3; subst h4
    rfl

/-- Witness for C7 at concrete inputs: the spec's Example-1 configuration
has a duplicate-free result, and re-running the Selector on the same
inputs reproduces it. -/
theorem select_nodup_deterministic_witness :
    (select [] [] ["!darwin/amd64"]
      [⟨"linux", "amd64"⟩, ⟨"linux", "arm"⟩, ⟨"darwin", "amd64"⟩]).Nodup ∧
    select [] [] ["!darwin/amd64"]
        [⟨"linux", "amd64"⟩, ⟨"linux", "arm"⟩, ⟨"darwin", "amd64"⟩] =
      select [] [] ["!darwin/amd64"]
        [⟨"linux", "amd64"⟩, ⟨"linux", "arm"⟩, ⟨"darwin", "amd64"⟩] :=
  ⟨(select_nodup_deterministic [] [] ["!darwin/amd64"]
      [⟨"linux", "amd64"⟩, ⟨"linux", "arm"⟩, ⟨"darwin", "amd64"⟩]).1,
   (select_nodup_deterministic [] [] ["!darwin/amd64"]
      [⟨"linux", "amd64"⟩, ⟨"linux", "arm"⟩, ⟨"darwin", "amd64"⟩]).2
      _ _ _ _ rfl rfl rfl rfl⟩

/-! ### Claims about parallelism, packages, overrides and templates -/

/-- C5: a caller value ≤ 0 resolves to `max 1 (cpus - 1)` off Solaris and
to the fixed value 3 on Solaris regardless of the detected core count; a
caller value ≥ 1 is used unchanged; in particular 0 with 8 cores off
Solaris resolves to 7. -/
theorem resolveParallel_characterization (parallel : Int) (cpus : Nat)
    (sol : Bool) :
    (parallel ≤ 0 → sol = false →
      resolveParallel parallel cpus sol = max 1 ((cpus : Int) - 1)) ∧
    (parallel ≤ 0 → sol = true → resolveParallel parallel cpus sol = 3) ∧
    (1 ≤ parallel → resolveParallel parallel cpus sol = parallel) ∧
    resolveParallel 0 8 false = 7 := by
  refine ⟨fun hp hs => ?_, fun hp hs => ?_, fun hp => ?_, by decide⟩
  · subst hs
    rw [resolveParallel, if_pos hp]
    by_cases hc : cpus < 2
    · simp only [if_pos hc, Bool.false_eq_true, if_neg (Bool.false_ne_true)]
      exact (max_eq_left (by omega : (cpus : Int) - 1 ≤ 1)).symm
    · simp only [if_neg hc, Bool.false_eq_true, if_neg (Bool.false_ne_true)]
      exact (max_eq_right (by omega : (1 : Int) ≤ (cpus : Int) - 1)).symm
  · subst hs
    rw [resolveParallel, if_pos hp]
    simp
  · rw [resolveParallel, if_neg (by omega)]

/-- Witness for C5: 0 with 8 cores off Solaris gives 7 = max 1 (8 - 1);
-1 with 48 cores on Solaris gives 3; an explicit 5 is kept. -/
theorem resolveParallel_witness :
    resolveParallel 0 8 false = max 1 ((8 : Int) - 1) ∧
    resolveParallel (-1) 48 true = 3 ∧
    resolveParallel 5 8 false = 5 :=
  ⟨(resolveParallel_characterization 0 8 false).1 (by decide) rfl,
   (resolveParallel_characterization (-1) 48 true).2.1 (by decide) rfl,
   (resolveParallel_characterization 5 8 false).2.2.1 (by decide)⟩

/-- C10: with no package arguments the package list defaults to exactly
`["."]`; any non-empty argument list is kept as given. -/
theorem resolvePackages_default (args : List String) :
    resolvePackages [] = ["."] ∧ (args ≠ [] → resolvePackages args = args) := by
  refine ⟨rfl, fun h => ?_⟩
  rw [resolvePackages, if_neg h]

/-- Witness for C10: a bare invocation builds `.`, an explicit argument
list is preserved. -/
theorem resolvePackages_default_witness :
    resolvePackages [] = ["."] ∧ resolvePackages ["./cmd/gox"] = ["./cmd/gox"] :=
  ⟨(resolvePackages_default []).1,
   (resolvePackages_default ["./cmd/gox"]).2 (by decide)⟩

/-- C6: for every category, platform and global default, a present
non-empty environment override yields the global default, a single
space, then the override (global prefix preserved); no override yields
the global default unchanged. Resolution is a pure function of
`(env, category, platform, globalDefault)`: the global default itself is
never mutated. -/
theorem resolveOverride_characterization (env : String → String)
    (category : String) (p : Platform) (globalDefault : String) :
    (env (overrideKey p category) ≠ "" →
      resolveOverride env category p globalDefault =
        globalDefault ++ " " ++ env (overrideKey p category)) ∧
    (env (overrideKey p category) = "" →
      resolveOverride env category p globalDefault = globalDefault) := by
  constructor
  · intro h
    rw [resolveOverride]
    simp only [if_neg h]
  · intro h
    rw [resolveOverride]
    simp only [if_pos h]

/-- Witness for C6: a `-w` override for linux/amd64 LDFLAGS is appended to
the global `-s`, and an empty environment leaves `-s` unchanged. -/
theorem resolveOverride_witness :
    resolveOverride (fun _ => "-w") "LDFLAGS" ⟨"linux", "amd64"⟩ "-s" =
      "-s" ++ " " ++ "-w" ∧
    resolveOverride (fun _ => "") "LDFLAGS" ⟨"linux", "amd64"⟩ "-s" = "-s" :=
  ⟨(resolveOverride_characterization (fun _ => "-w") "LDFLAGS"
      ⟨"linux", "amd64"⟩ "-s").1 (by decide),
   (resolveOverride_characterization (fun _ => "") "LDFLAGS"
      ⟨"linux", "amd64"⟩ "-s").2 rfl⟩

/-- C9: the default output template substitutes the package directory base
name, the OS and the Arch, underscore-separated — for every values of
the three variables — and in particular renders `Dir="app"`,
`OS="windows"`, `Arch="386"` to `"app_windows_386"`. -/
theorem output_template_default :
    renderOutputTpl defaultOutputTpl "app" "windows" "386" = "app_windows_386" ∧
    ∀ d o a : String,
      renderOutputTpl defaultOutputTpl d o a = d ++ "_" ++ o ++ "_" ++ a := by
  refine ⟨rfl, fun d o a => ?_⟩
  obtain ⟨ld⟩ := d
  obtain ⟨lo⟩ := o
  obtain ⟨la⟩ := a
  show String.mk (ld ++ '_' :: (lo ++ '_' :: (la ++ []))) = _
  have h : ld ++ '_' :: (lo ++ '_' :: (la ++ [])) =
      ld ++ ['_'] ++ lo ++ ['_'] ++ la := by
    simp
  exact congrArg String.mk h

/-! ### Claims about dispatch, aggregation and exit status -/

theorem runBuilds_foldl (compile : Platform → String → Option String) :
    ∀ (units : List (Platform × String)) (acc : DispatchResult),
      units.foldl
        (fun acc u =>
          match compile u.1 u.2 with
          | some msg =>
            ⟨acc.executed ++ [u], acc.errors ++ [u.1.str ++ " error: " ++ msg]⟩
          | none => ⟨acc.executed ++ [u], acc.errors⟩)
        acc =
      ⟨acc.executed ++ units, acc.errors ++ units.filterMap (errRecord compile)⟩ := by
  intro units
  induction units with
  | nil => intro acc; simp
  | cons u rest ih =>
    intro acc
    rw [List.foldl_cons]
    cases hc : compile u.1 u.2 with
    | none =>
      simp only [hc, ih]
      simp [errRecord, hc, List.filterMap_cons]
    | some msg =>
      simp only [hc, ih]
      simp [errRecord, hc, List.filterMap_cons]

theorem runBuilds_spec (units : List (Platform × String))
    (compile : Platform → String → Option String) :
    runBuilds units compile = ⟨units, units.filterMap (errRecord compile)⟩ := by
  rw [runBuilds, runBuilds_foldl]
  simp

/-- C3: every dispatched unit runs to completion whatever the other units'
compiles return — a failing unit is recorded as its platform-naming
error record and removes nothing from the set of executed units — and
the recorded failures are exactly the failing units' records, available
as one collection once all units are done. -/
theorem dispatch_partial_failure (units : List (Platform × String))
    (compile : Platform → String → Option String) :
    (runBuilds units compile).executed = units ∧
    (runBuilds units compile).errors = units.filterMap (errRecord compile) := by
  rw [runBuilds_spec]
  exact ⟨rfl, rfl⟩

/-- C4: in a build run (no `-version`, no `-build-toolchain`, no
`-osarch-list`), the exit status is 1 on invalid invocation inputs
(flag-parse failure or unreadable packages), on a missing toolchain
executable, on an unreadable Go version and on an empty resolved
platform set; once dispatch is reached, it is 0 exactly when every
compile unit succeeds. -/
theorem mainExit_codes (r : CLIRun) (hv : r.version = false)
    (hbt : r.buildToolchain = false) (hl : r.listOSArch = false) :
    (r.parseOk = false → mainExit r = 1) ∧
    (r.parseOk = true → r.gocmdOnPath = false → mainExit r = 1) ∧
    (r.parseOk = true → r.gocmdOnPath = true → r.goVersionOk = false →
      mainExit r = 1) ∧
    (r.parseOk = true → r.gocmdOnPath = true → r.goVersionOk = true →
      r.mainDirsOk = false → mainExit r = 1) ∧
    (r.parseOk = true → r.gocmdOnPath = true → r.goVersionOk = true →
      r.mainDirsOk = true → select r.osSpec r.archSpec r.osArchSpec r.uni = [] →
      mainExit r = 1) ∧
    (r.parseOk = true → r.gocmdOnPath = true → r.goVersionOk = true →
      r.mainDirsOk = true → select r.osSpec r.archSpec r.osArchSpec r.uni ≠ [] →
      (mainExit r = 0 ↔
        ∀ u ∈ dispatchUnits (select r.osSpec r.archSpec r.osArchSpec r.uni)
            r.mainDirs,
          r.compile u.1 u.2 = none)) := by
  refine ⟨fun hp => ?_, fun hp hg => ?_, fun hp hg hgv => ?_,
    fun hp hg hgv hm => ?_, fun hp hg hgv hm hsel => ?_,
    fun hp hg hgv hm hsel => ?_⟩
  · simp [mainExit, hp]
  · simp [mainExit, hp, hv, hbt, hg]
  · simp [mainExit, hp, hv, hbt, hg, hgv]
  · simp [mainExit, hp, hv, hbt, hg, hgv, hl, hm]
  · simp [mainExit, hp, hv, hbt, hg, hgv, hl, hm, hsel]
  · simp only [mainExit, hp, hv, hbt, hg, hgv, hl, hm, hsel, Bool.not_true,
      Bool.false_eq_true, if_neg, if_false, ite_false, ite_true, if_pos,
      Bool.true_eq_false]
    rw [runBuilds_spec]
    constructor
    · intro h0 u hu
      by_cases hlen :
        (List.filterMap (errRecord r.compile)
          (dispatchUnits (select r.osSpec r.archSpec r.osArchSpec r.uni)
            r.mainDirs)).length > 0
      · rw [if_pos hlen] at h0
        exact absurd h0 one_ne_zero
      · have hzero : (List.filterMap (errRecord r.compile)
            (dispatchUnits (select r.osSpec r.archSpec r.osArchSpec r.uni)
              r.mainDirs)).length = 0 := by omega
        have hnil := List.eq_nil_of_length_eq_zero hzero
        have hmu := List.filterMap_eq_nil_iff.mp hnil u hu
        exact Option.map_eq_none'.mp hmu
    · intro hall
      have hnil : List.filterMap (errRecord r.compile)
          (dispatchUnits (select r.osSpec r.archSpec r.osArchSpec r.uni)
            r.mainDirs) = [] :=
        List.filterMap_eq_nil_iff.mpr
          (fun u hu => Option.map_eq_none'.mpr (hall u hu))
      rw [hnil]
      simp

/-- A concrete run with every pre-check passing and every compile
succeeding. -/
def sampleRun : CLIRun :=
  { parseOk := true
    version := false
    buildToolchain := false
    buildToolchainExit := 0
    gocmdOnPath := true
    goVersionOk := true
    listOSArch := false
    listOSArchExit := 0
    mainDirsOk := true
    mainDirs := ["."]
    osSpec := ["linux"]
    archSpec := []
    osArchSpec := []
    uni := [⟨"linux", "amd64"⟩, ⟨"darwin", "amd64"⟩]
    compile := fun _ _ => none }

/-- Witness for C4: a fully successful concrete run exits 0. -/
theorem mainExit_codes_witness : mainExit sampleRun = 0 :=
  ((mainExit_codes sampleRun rfl rfl rfl).2.2.2.2.2 rfl rfl rfl rfl
    (by decide)).mpr (by decide)

/-- The same concrete run invoked with `-version`. -/
def versionRun : CLIRun := { sampleRun with version := true }

/-- Counterexample to C4 read over every run: with `-version` set,
`MainCLI` returns 1 (cli.go lines 71-74) although every compile unit of
the run succeeds, so exit status 0 is not equivalent to all compiles
succeeding on such runs. -/
theorem mainExit_codes_counterexample :
    mainExit versionRun = 1 ∧
    ∀ u ∈ dispatchUnits
        (select versionRun.osSpec versionRun.archSpec versionRun.osArchSpec
          versionRun.uni)
        versionRun.mainDirs,
      versionRun.compile u.1 u.2 = none := by
  constructor
  · rfl
  · intro u hu
    rfl

/-! ### Claims about the concurrency discipline -/

theorem semReach_inflight_le (cap n : Nat) :
    ∀ s, SemReach cap n s → s.inflight ≤ cap := by
  intro s h
  induction h with
  | init => exact Nat.zero_le cap
  | step hr hs ih =>
    cases hs with
    | acquire hp hc => exact hc
    | releaseOk hi => exact le_trans (Nat.sub_le _ _) ih
    | releaseFail hi => exact le_trans (Nat.sub_le _ _) ih

/-- C8: under semaphore capacity `cap ≥ 1`, every reachable state of the
dispatch loop has at most `cap` compiles in flight; any reachable state
with work left can step (a freed slot always admits a pending unit, so
no unit starves); every step strictly decreases the remaining work, so
the loop cannot run forever without finishing all units; and a unit
holding a slot releases it on the success path and on the failure path
alike. -/
theorem dispatcher_semaphore (cap n : Nat) (hcap : 1 ≤ cap) :
    (∀ s, SemReach cap n s → s.inflight ≤ cap) ∧
    (∀ s, SemReach cap n s → 0 < s.pending + s.inflight →
      ∃ s2, SemStep cap s s2) ∧
    (∀ s s2, SemStep cap s s2 →
      2 * s2.pending + s2.inflight < 2 * s.pending + s.inflight) ∧
    (∀ s : SemState, 0 < s.inflight →
      SemStep cap s ⟨s.pending, s.inflight - 1, s.succeeded + 1, s.failed⟩ ∧
      SemStep cap s ⟨s.pending, s.inflight - 1, s.succeeded, s.failed + 1⟩) := by
  refine ⟨semReach_inflight_le cap n, fun s hr hwork => ?_, fun s s2 hs => ?_,
    fun s hi => ⟨SemStep.releaseOk s hi, SemStep.releaseFail s hi⟩⟩
  · by_cases hi : 0 < s.inflight
    · exact ⟨_, SemStep.releaseOk s hi⟩
    · have hp : 0 < s.pending := by omega
      have hc : s.inflight < cap := by omega
      exact ⟨_, SemStep.acquire s hp hc⟩
  · cases hs with
    | acquire hp hc => simp only; omega
    | releaseOk hi => simp only; omega
    | releaseFail hi => simp only; omega

/-- Witness for C8: capacity 1 with 2 units — the in-flight bound and the
progress guarantee hold, and from the initial state a concrete first
step exists. -/
theorem dispatcher_semaphore_witness :
    (∀ s, SemReach 1 2 s → s.inflight ≤ 1) ∧
    (∀ s, SemReach 1 2 s → 0 < s.pending + s.inflight →
      ∃ s2, SemStep 1 s s2) :=
  ⟨(dispatcher_semaphore 1 2 (Nat.le_refl 1)).1,
   (dispatcher_semaphore 1 2 (Nat.le_refl 1)).2.1⟩

end Gox
